import Mathlib

/-!
Verification of the LegacySurvey query client
(`astroquery/legacysurvey/core.py`).

The embedding models the brick-lookup logic of `query_region_async`, the
resource-identifier construction, and the request-shaping behaviour of
`query_object_async`, `query_brick_list_async` and `_parse_result`.
Coordinates are modelled as rationals (the code only compares them and
truncates `ra1` to its integer part, so exact arithmetic is faithful).
Network effects are reified: a returned `request`/URL value stands for the
HTTP GET the code issues, and the region-query trace records which rows of
each catalog the scan loops examined.
-/

namespace LegacySurvey

/-- One row of a survey-bricks table: `brickname, ra1, ra2, dec1, dec2`
(the columns read by `query_region_async`). -/
structure BrickRecord where
  brickname : String
  ra1 : ℚ
  ra2 : ℚ
  dec1 : ℚ
  dec2 : ℚ
deriving Repr, DecidableEq

/-- The match test of the scan loops:
`if ra1 <= ra <= ra2 and dec1 <= dec <= dec2` (core.py lines 219 and 227). -/
def recordMatches (r : BrickRecord) (ra dec : ℚ) : Bool :=
  decide (r.ra1 ≤ ra) && decide (ra ≤ r.ra2) &&
    decide (r.dec1 ≤ dec) && decide (dec ≤ r.dec2)

/-- The `for r in table: ... if match: row = r; break` loop: first record of
the catalog, in catalog order, whose box contains the point. -/
def firstMatch (cat : List BrickRecord) (ra dec : ℚ) : Option BrickRecord :=
  cat.find? (fun r => recordMatches r ra dec)

/-- How many records the scan loop examines before it terminates: it stops
at the first match (`break`), otherwise it walks the whole catalog. -/
def examinedCount : List BrickRecord → ℚ → ℚ → Nat
  | [], _, _ => 0
  | r :: rs, ra, dec =>
      if recordMatches r ra dec then 1 else 1 + examinedCount rs ra dec

/-- Python `int()` on a rational: truncation toward zero
(`int(row['ra1'])`, core.py lines 233 and 244). -/
def pyInt (q : ℚ) : ℤ :=
  Int.tdiv q.num (q.den : ℤ)

/-- Decimal digits of `n`, most significant first; `fuel` bounds the
recursion depth (`fuel = n` is always enough). -/
def natToDigitsAux : Nat → Nat → List Char
  | 0, _ => []
  | fuel + 1, n =>
      if n = 0 then []
      else natToDigitsAux fuel (n / 10) ++ [Nat.digitChar (n % 10)]

/-- Decimal numeral of a natural number (Python `str`/`format` on `int`). -/
def natRepr (n : Nat) : String :=
  if n = 0 then "0" else String.mk (natToDigitsAux n n)

/-- Left-pad a string with `'0'` to a minimum width `w`. -/
def leftPadZero (w : Nat) (s : String) : String :=
  String.mk (List.replicate (w - s.length) '0') ++ s

/-- Python `"{0:03}".format(i)`: zero-pad to minimum width 3, the sign
counting toward the width. -/
def format03 (i : ℤ) : String :=
  if i < 0 then "-" ++ leftPadZero 2 (natRepr i.natAbs)
  else leftPadZero 3 (natRepr i.natAbs)

/-- `raIntPart = "{0:03}".format(int(row['ra1']))` (core.py lines 233, 244). -/
def raIntPart (r : BrickRecord) : String :=
  format03 (pyInt r.ra1)

/-- The tractor-file URL built for a matched row:
`f"{URL}/dr{data_release}/{hemisphere}/tractor/{raIntPart}/tractor-{brickname}.fits"`
(core.py lines 237 and 248; the hemisphere label is the literal `"north"`
or `"south"` of the branch that fires). -/
def tractorURL (base : String) (dataRelease : Nat) (hemisphere : String)
    (r : BrickRecord) : String :=
  base ++ "/dr" ++ natRepr dataRelease ++ "/" ++ hemisphere ++ "/tractor/" ++
    raIntPart r ++ "/tractor-" ++ r.brickname ++ ".fits"

/-- Observable outcome of one `query_region_async` call (core.py lines
196-253).  `result = some url` means the call issued `requests.get(url)`
and returned that response; `result = none` means it returned `None`
without fetching any resource.  The `Examined` fields count how many rows
of each catalog the two scan loops visited. -/
structure RegionQueryTrace where
  row_north : Option BrickRecord
  row_south : Option BrickRecord
  northExamined : Nat
  southExamined : Nat
  result : Option String
deriving Repr, DecidableEq

/-- `query_region_async` after the two brick lists have been fetched: scan
north, scan south (both loops run unconditionally, in that order), then
return the north response if `row_north` is set, else the south response if
`row_south` is set, else `None`. -/
def query_region_async (base : String) (dataRelease : Nat)
    (table_north table_south : List BrickRecord) (ra dec : ℚ) :
    RegionQueryTrace :=
  let row_north := firstMatch table_north ra dec
  let row_south := firstMatch table_south ra dec
  { row_north := row_north
    row_south := row_south
    northExamined := examinedCount table_north ra dec
    southExamined := examinedCount table_south ra dec
    result :=
      match row_north with
      | some r => some (tractorURL base dataRelease "north" r)
      | none =>
        match row_south with
        | some r => some (tractorURL base dataRelease "south" r)
        | none => none }

/-- Observable outcome of `query_object_async` (core.py lines 67-140):
either the request-payload dict is returned without any network activity
(`get_query_payload=True`), or a GET is issued through `self._request`
with the given URL and cache flag and its response returned. -/
inductive ObjectQueryResult where
  | payload (p : List (String × String))
  | request (url : String) (cache : Bool)
deriving Repr, DecidableEq

/-- `query_object_async(object_name, get_query_payload, cache, data_release)`:
the payload dict stays empty (the `request_payload['object_name']` line is
commented out), and the URL is the hard-coded
`f"{URL}/dr{data_release}/north/tractor/000/tractor-0001m002.fits"` —
`object_name` is never used. -/
def query_object_async (base objectName : String)
    (getQueryPayload : Bool) (cache : Bool) (dataRelease : Nat) :
    ObjectQueryResult :=
  let requestPayload : List (String × String) := []
  if getQueryPayload then ObjectQueryResult.payload requestPayload
  else
    ObjectQueryResult.request
      (base ++ "/dr" ++ natRepr dataRelease ++
        "/north/tractor/000/tractor-0001m002.fits")
      cache

/-- Observable outcome of `query_brick_list_async` (core.py lines 142-160):
either the empty payload dict, or a plain `requests.get(URL)` on the
survey-bricks URL (the cache-aware `self._request` call is commented out,
so the cache flag does not reach the request). -/
inductive BrickListResult where
  | payload (p : List (String × String))
  | request (url : String)
deriving Repr, DecidableEq

/-- `query_brick_list_async(data_release, get_query_payload, emisphere, cache)`:
empty payload dict, else GET on
`f"{URL}/dr{data_release}/{emisphere}/survey-bricks-dr{data_release}-{emisphere}.fits.gz"`. -/
def query_brick_list_async (base : String) (dataRelease : Nat)
    (getQueryPayload : Bool) (emisphere : String) : BrickListResult :=
  let requestPayload : List (String × String) := []
  if getQueryPayload then BrickListResult.payload requestPayload
  else
    BrickListResult.request
      (base ++ "/dr" ++ natRepr dataRelease ++ "/" ++ emisphere ++
        "/survey-bricks-dr" ++ natRepr dataRelease ++ "-" ++ emisphere ++
        ".fits.gz")

/-- What `_parse_result` does after the `try` block (core.py lines 270-293):
`returned t` models `return table` with `table` bound to the decoded value;
`raisedUnboundLocal` models reaching `return table` with the local `table`
never assigned, which raises `UnboundLocalError` at runtime. -/
inductive ParseOutcome (α : Type) where
  | returned (t : α)
  | raisedUnboundLocal
deriving Repr, DecidableEq

/-- `_parse_result`: `table = Table.read(...)` inside `try`; on a
`ValueError` from the decoder the `except` branch is a bare `pass`, so the
error is discarded and control falls through to `return table` with the
local still unbound.  The argument is the outcome of the black-box format
decoder: `Except.ok t` for a successful decode, `Except.error ()` for a
raised `ValueError`. -/
def parse_result {α : Type} (decoded : Except Unit α) : ParseOutcome α :=
  let table : Option α :=
    match decoded with
    | Except.ok t => some t
    | Except.error _ => none
  match table with
  | some t => ParseOutcome.returned t
  | none => ParseOutcome.raisedUnboundLocal

/-! Concrete catalogs used to exercise the definitions. -/

/-- North brick covering `ra ∈ [0,1]`, `dec ∈ [-1,1]`. -/
def brickA : BrickRecord := ⟨"0001m002", 0, 1, -1, 1⟩

/-- Second north brick overlapping `brickA` (`ra ∈ [0,2]`, `dec ∈ [-1,1]`). -/
def brickB : BrickRecord := ⟨"0001p000", 0, 2, -1, 1⟩

/-- South brick covering the same box as `brickA`. -/
def brickS : BrickRecord := ⟨"0001m002s", 0, 1, -1, 1⟩

/-- South brick covering `ra ∈ [4,6]`, `dec ∈ [-1,1]`. -/
def brickFar : BrickRecord := ⟨"0050m002", 4, 6, -1, 1⟩

/-- The record of the spec scenario:
`{brickname:"0001m002", ra1:0.0, ra2:1.0, dec1:-0.5, dec2:0.5}`. -/
def scenarioBrick : BrickRecord := ⟨"0001m002", 0, 1, -(1/2), 1/2⟩

/-! Basic lemmas about the match test and the scan. -/

/-- The boolean match test holds exactly when the point lies inside the
record's box, all four bounds inclusive. -/
lemma recordMatches_iff (r : BrickRecord) (ra dec : ℚ) :
    recordMatches r ra dec = true ↔
      (r.ra1 ≤ ra ∧ ra ≤ r.ra2 ∧ r.dec1 ≤ dec ∧ dec ≤ r.dec2) := by
  simp [recordMatches, and_assoc]

/-- If no record of the catalog matches, the scan finds nothing. -/
lemma firstMatch_eq_none (cat : List BrickRecord) (ra dec : ℚ)
    (h : ∀ r ∈ cat, recordMatches r ra dec = false) :
    firstMatch cat ra dec = none := by
  rw [firstMatch, List.find?_eq_none]
  intro x hx
  simp [h x hx]

/-- If the record at index `i` matches, the scan returns the record at the
least matching index, which is at most `i`. -/
lemma firstMatch_least (ra dec : ℚ) :
    ∀ (cat : List BrickRecord) (i : Nat) (hi : i < cat.length),
      recordMatches (cat.get ⟨i, hi⟩) ra dec = true →
      ∃ k, ∃ hk : k < cat.length, k ≤ i ∧
        recordMatches (cat.get ⟨k, hk⟩) ra dec = true ∧
        firstMatch cat ra dec = some (cat.get ⟨k, hk⟩) := by
  intro cat
  induction cat with
  | nil =>
    intro i hi _
    exact absurd hi (by simp)
  | cons a t ih =>
    intro i hi h
    by_cases ha : recordMatches a ra dec = true
    · refine ⟨0, by simp, Nat.zero_le i, by simpa using ha, ?_⟩
      simpa [firstMatch] using
        @List.find?_cons_of_pos _ (fun r => recordMatches r ra dec) a t ha
    · cases i with
      | zero =>
        exact absurd (by simpa using h) ha
      | succ n =>
        have hn : n < t.length := by
          simpa [Nat.succ_lt_succ_iff] using hi
        have hmn : recordMatches (t.get ⟨n, hn⟩) ra dec = true := by
          simpa using h
        obtain ⟨k, hk, hki, hmk, hfind⟩ := ih n hn hmn
        refine ⟨k + 1, by simpa [Nat.succ_lt_succ_iff] using hk,
          Nat.succ_le_succ hki, by simpa using hmk, ?_⟩
        rw [firstMatch] at hfind ⊢
        rw [@List.find?_cons_of_neg _ (fun r => recordMatches r ra dec) a t ha]
        simpa using hfind

/-- If `s` is the only matching record of the catalog, the scan returns `s`. -/
lemma firstMatch_unique (ra dec : ℚ) :
    ∀ (cat : List BrickRecord) (s : BrickRecord), s ∈ cat →
      recordMatches s ra dec = true →
      (∀ x ∈ cat, recordMatches x ra dec = true → x = s) →
      firstMatch cat ra dec = some s := by
  intro cat
  induction cat with
  | nil =>
    intro s hs _ _
    simp at hs
  | cons a t ih =>
    intro s hs hms huniq
    by_cases ha : recordMatches a ra dec = true
    · have has : a = s := huniq a (by simp) ha
      rw [firstMatch]
      rw [has] at ha ⊢
      exact @List.find?_cons_of_pos _ (fun r => recordMatches r ra dec) s t ha
    · have hst : s ∈ t := by
        rcases List.mem_cons.mp hs with h | h
        · rw [h] at hms
          exact absurd hms ha
        · exact h
      have ht := ih s hst hms (fun x hx hm => huniq x (List.mem_cons_of_mem _ hx) hm)
      rw [firstMatch] at ht ⊢
      rw [@List.find?_cons_of_neg _ (fun r => recordMatches r ra dec) a t ha]
      exact ht

/-! Lemmas about the decimal formatting. -/

/-- A number below `10 ^ k` prints with at most `k` digits. -/
lemma natToDigitsAux_length_le :
    ∀ (fuel n k : Nat), n < 10 ^ k → (natToDigitsAux fuel n).length ≤ k := by
  intro fuel
  induction fuel with
  | zero =>
    intro n k _
    simp [natToDigitsAux]
  | succ f ih =>
    intro n k hn
    show (if n = 0 then [] else
      natToDigitsAux f (n / 10) ++ [Nat.digitChar (n % 10)]).length ≤ k
    by_cases h0 : n = 0
    · simp [h0]
    · rw [if_neg h0, List.length_append]
      cases k with
      | zero =>
        exact absurd (Nat.lt_one_iff.mp (by simpa using hn)) h0
      | succ k =>
        have hdiv : n / 10 < 10 ^ k := by
          rw [Nat.div_lt_iff_lt_mul (by norm_num)]
          calc n < 10 ^ (k + 1) := hn
          _ = 10 ^ k * 10 := by ring
        have := ih (n / 10) k hdiv
        simp only [List.length_singleton]
        omega

/-- A number below 1000 prints with at most 3 characters. -/
lemma natRepr_length_le_three (n : Nat) (h : n < 1000) :
    (natRepr n).length ≤ 3 := by
  by_cases h0 : n = 0
  · rw [natRepr, if_pos h0]
    decide
  · rw [natRepr, if_neg h0]
    have h3 : n < 10 ^ 3 := by norm_num; omega
    exact natToDigitsAux_length_le n n 3 h3

/-- Padding a string of length at most `w` yields length exactly `w`. -/
lemma leftPadZero_length (w : Nat) (s : String) (h : s.length ≤ w) :
    (leftPadZero w s).length = w := by
  have h1 : (String.mk (List.replicate (w - s.length) '0')).length
      = w - s.length := by
    show (List.replicate (w - s.length) '0').length = w - s.length
    simp
  rw [leftPadZero, String.length_append, h1]
  omega

/-- `"{0:03}"` produces exactly three characters on `0 ≤ i < 1000`. -/
lemma format03_length (i : ℤ) (h0 : 0 ≤ i) (h1 : i < 1000) :
    (format03 i).length = 3 := by
  rw [format03, if_neg (by omega : ¬ i < 0)]
  refine leftPadZero_length 3 _ (natRepr_length_le_three _ ?_)
  omega

/-! Claims. -/

/-- Claim C1, counterexample.  The claim states that when a north record
contains the query point the south catalog is not scanned.  At the concrete
input below the north record `brickA` contains the point `(0, 0)` and the
call does return the north resource, yet the south scan loop still examined
a record and computed a south match: the code runs both scan loops
unconditionally before looking at `row_north`, so the south catalog is
scanned even when north matches. -/
theorem claim_C1_counterexample :
    recordMatches brickA 0 0 = true ∧
    (query_region_async "BASE" 9 [brickA] [brickS] 0 0).result =
      some (tractorURL "BASE" 9 "north" brickA) ∧
    ¬ (query_region_async "BASE" 9 [brickA] [brickS] 0 0).southExamined = 0 ∧
    (query_region_async "BASE" 9 [brickA] [brickS] 0 0).row_south =
      some brickS := by
  decide

/-- Claim C1, amended: if some north record contains the point, the call
returns the resource of the first matching north record and the result is
independent of the south catalog (any south match is ignored); the south
catalog is nevertheless still scanned (its loop examines at least one
record whenever it is nonempty). -/
theorem claim_C1_amended (base : String) (dataRelease : Nat)
    (north south southAlt : List BrickRecord) (ra dec : ℚ)
    (r s : BrickRecord) (rest : List BrickRecord)
    (h : firstMatch north ra dec = some r) :
    (query_region_async base dataRelease north south ra dec).result =
      some (tractorURL base dataRelease "north" r) ∧
    (query_region_async base dataRelease north south ra dec).result =
      (query_region_async base dataRelease north southAlt ra dec).result ∧
    1 ≤ (query_region_async base dataRelease north (s :: rest) ra dec).southExamined := by
  refine ⟨by simp [query_region_async, h], by simp [query_region_async, h], ?_⟩
  show 1 ≤ examinedCount (s :: rest) ra dec
  simp only [examinedCount]
  split
  · exact Nat.le_refl 1
  · exact Nat.le_add_right 1 _

/-- Witness for the amended claim C1 at a concrete input. -/
theorem claim_C1_amended_witness :
    (query_region_async "BASE" 9 [brickA] [brickS] 0 0).result =
      some (tractorURL "BASE" 9 "north" brickA) ∧
    (query_region_async "BASE" 9 [brickA] [brickS] 0 0).result =
      (query_region_async "BASE" 9 [brickA] [] 0 0).result ∧
    1 ≤ (query_region_async "BASE" 9 [brickA] (brickS :: []) 0 0).southExamined :=
  claim_C1_amended "BASE" 9 [brickA] [brickS] [] 0 0 brickA brickS [] (by decide)

/-- Claim C2: the scan visits records in catalog order and selects the
first record whose box contains the point; when two records at indices
`i < j` both contain the point, the scan result is a matching record at an
index at most `i` (in particular strictly before `j`): the earlier-indexed
record wins. -/
theorem claim_C2 (base : String) (dataRelease : Nat)
    (north south : List BrickRecord) (ra dec : ℚ) (i j : Nat)
    (hj : j < north.length) (hij : i < j)
    (hmi : recordMatches (north.get ⟨i, Nat.lt_trans hij hj⟩) ra dec = true)
    (hmj : recordMatches (north.get ⟨j, hj⟩) ra dec = true) :
    ∃ k, ∃ hk : k < north.length, k ≤ i ∧ k < j ∧
      recordMatches (north.get ⟨k, hk⟩) ra dec = true ∧
      (query_region_async base dataRelease north south ra dec).row_north =
        some (north.get ⟨k, hk⟩) := by
  obtain ⟨k, hk, hki, hmk, hfind⟩ :=
    firstMatch_least ra dec north i (Nat.lt_trans hij hj) hmi
  exact ⟨k, hk, hki, Nat.lt_of_le_of_lt hki hij, hmk,
    by simpa [query_region_async] using hfind⟩

/-- Witness for claim C2: two overlapping north bricks both containing
`(0, 0)`; the scan returns the record at index 0. -/
theorem claim_C2_witness :
    ∃ k, ∃ hk : k < ([brickA, brickB] : List BrickRecord).length, k ≤ 0 ∧ k < 1 ∧
      recordMatches (([brickA, brickB] : List BrickRecord).get ⟨k, hk⟩) 0 0 = true ∧
      (query_region_async "BASE" 9 [brickA, brickB] [] 0 0).row_north =
        some (([brickA, brickB] : List BrickRecord).get ⟨k, hk⟩) :=
  claim_C2 "BASE" 9 [brickA, brickB] [] 0 0 0 1 (by decide) (by decide)
    (by decide) (by decide)

/-- Claim C3: a record matches exactly when
`ra1 ≤ ra ≤ ra2` and `dec1 ≤ dec ≤ dec2`, all four bounds inclusive: for a
record with well-ordered bounds, every corner of the box (a point exactly
on the boundary) matches. -/
theorem claim_C3 (r : BrickRecord) (ra dec : ℚ)
    (hra : r.ra1 ≤ r.ra2) (hdec : r.dec1 ≤ r.dec2) :
    (recordMatches r ra dec = true ↔
      (r.ra1 ≤ ra ∧ ra ≤ r.ra2 ∧ r.dec1 ≤ dec ∧ dec ≤ r.dec2)) ∧
    recordMatches r r.ra1 r.dec1 = true ∧
    recordMatches r r.ra2 r.dec2 = true ∧
    recordMatches r r.ra1 r.dec2 = true ∧
    recordMatches r r.ra2 r.dec1 = true := by
  refine ⟨recordMatches_iff r ra dec, ?_, ?_, ?_, ?_⟩ <;>
    simp [recordMatches, hra, hdec]

/-- Witness for claim C3 at the concrete record `brickA` and point `(0, 0)`. -/
theorem claim_C3_witness :
    (recordMatches brickA 0 0 = true ↔
      (brickA.ra1 ≤ 0 ∧ (0 : ℚ) ≤ brickA.ra2 ∧
        brickA.dec1 ≤ 0 ∧ (0 : ℚ) ≤ brickA.dec2)) ∧
    recordMatches brickA brickA.ra1 brickA.dec1 = true ∧
    recordMatches brickA brickA.ra2 brickA.dec2 = true ∧
    recordMatches brickA brickA.ra1 brickA.dec2 = true ∧
    recordMatches brickA brickA.ra2 brickA.dec1 = true :=
  claim_C3 brickA 0 0 (by decide) (by decide)

/-- Claim C4: when no record of either catalog contains the point, the
call returns the null no-match signal (`result = none`: it returns `None`
rather than raising) and no tractor resource is fetched (a fetch happens
exactly when `result` carries a URL); both row variables stay unset. -/
theorem claim_C4 (base : String) (dataRelease : Nat)
    (north south : List BrickRecord) (ra dec : ℚ)
    (hn : ∀ r ∈ north, recordMatches r ra dec = false)
    (hs : ∀ r ∈ south, recordMatches r ra dec = false) :
    (query_region_async base dataRelease north south ra dec).result = none ∧
    (query_region_async base dataRelease north south ra dec).row_north = none ∧
    (query_region_async base dataRelease north south ra dec).row_south = none := by
  have h1 := firstMatch_eq_none north ra dec hn
  have h2 := firstMatch_eq_none south ra dec hs
  refine ⟨?_, ?_, ?_⟩ <;> simp [query_region_async, h1, h2]

/-- Witness for claim C4: the point `(5, 0)` lies in no brick of either
catalog (the spec scenario "query point (ra=5.0, dec=0.0) → no-match"). -/
theorem claim_C4_witness :
    (query_region_async "BASE" 9 [brickA] [brickS] 5 0).result = none ∧
    (query_region_async "BASE" 9 [brickA] [brickS] 5 0).row_north = none ∧
    (query_region_async "BASE" 9 [brickA] [brickS] 5 0).row_south = none :=
  claim_C4 "BASE" 9 [brickA] [brickS] 5 0 (by decide) (by decide)

/-- Claim C5: the resource identifier is a pure function of
`(data_release, hemisphere, matched record)` equal to the template
`{base}/dr{data_release}/{hemisphere}/tractor/{ra1_int}/tractor-{brickname}.fits`,
where `ra1_int` is the integer part of the record's `ra1` zero-padded to
exactly 3 digits: it has length 3 whenever that integer part lies in
`[0, 1000)`, `ra1 = 1.7` gives `"001"`, `ra1 = 123.9` gives `"123"`, and
the spec scenario (north catalog `[scenarioBrick]`, south empty, point
`(0.5, 0)`, data release 9) yields
`"BASE/dr9/north/tractor/000/tractor-0001m002.fits"`. -/
theorem claim_C5 (base hemisphere : String) (dataRelease : Nat)
    (r : BrickRecord)
    (h0 : 0 ≤ pyInt r.ra1) (h1 : pyInt r.ra1 < 1000) :
    tractorURL base dataRelease hemisphere r =
      base ++ "/dr" ++ natRepr dataRelease ++ "/" ++ hemisphere ++
        "/tractor/" ++ format03 (pyInt r.ra1) ++ "/tractor-" ++
        r.brickname ++ ".fits" ∧
    (raIntPart r).length = 3 ∧
    format03 (pyInt ((17 : ℚ) / 10)) = "001" ∧
    format03 (pyInt ((1239 : ℚ) / 10)) = "123" ∧
    (query_region_async "BASE" 9 [scenarioBrick] [] ((1 : ℚ) / 2) 0).result =
      some "BASE/dr9/north/tractor/000/tractor-0001m002.fits" := by
  refine ⟨rfl, ?_, ?_, ?_, ?_⟩
  · rw [raIntPart]
    exact format03_length _ h0 h1
  · have h17 : pyInt ((17 : ℚ) / 10) = 1 := by norm_num [pyInt]; decide
    rw [h17]
    decide
  · have h1239 : pyInt ((1239 : ℚ) / 10) = 123 := by norm_num [pyInt]; decide
    rw [h1239]
    decide
  · have hm : recordMatches scenarioBrick ((1 : ℚ) / 2) 0 = true := by
      rw [recordMatches_iff]
      refine ⟨?_, ?_, ?_, ?_⟩ <;> norm_num [scenarioBrick]
    have hf : firstMatch [scenarioBrick] ((1 : ℚ) / 2) 0 = some scenarioBrick :=
      @List.find?_cons_of_pos _
        (fun r => recordMatches r ((1 : ℚ) / 2) 0) scenarioBrick [] hm
    simp only [query_region_async, hf]
    decide

/-- Witness for claim C5 at the concrete record `brickA` (integer part of
`ra1` is 0). -/
theorem claim_C5_witness :
    tractorURL "BASE" 9 "north" brickA =
      "BASE" ++ "/dr" ++ natRepr 9 ++ "/" ++ "north" ++
        "/tractor/" ++ format03 (pyInt brickA.ra1) ++ "/tractor-" ++
        brickA.brickname ++ ".fits" ∧
    (raIntPart brickA).length = 3 ∧
    format03 (pyInt ((17 : ℚ) / 10)) = "001" ∧
    format03 (pyInt ((1239 : ℚ) / 10)) = "123" ∧
    (query_region_async "BASE" 9 [scenarioBrick] [] ((1 : ℚ) / 2) 0).result =
      some "BASE/dr9/north/tractor/000/tractor-0001m002.fits" :=
  claim_C5 "BASE" "north" 9 brickA (by decide) (by decide)

/-- Claim C6: when no north record contains the point and exactly one
south record does, the call returns the resource of that south record,
built with the hemisphere label `"south"`. -/
theorem claim_C6 (base : String) (dataRelease : Nat)
    (north south : List BrickRecord) (ra dec : ℚ) (s : BrickRecord)
    (hn : ∀ r ∈ north, recordMatches r ra dec = false)
    (hsmem : s ∈ south) (hsm : recordMatches s ra dec = true)
    (huniq : ∀ x ∈ south, recordMatches x ra dec = true → x = s) :
    (query_region_async base dataRelease north south ra dec).result =
      some (tractorURL base dataRelease "south" s) := by
  have h1 := firstMatch_eq_none north ra dec hn
  have h2 := firstMatch_unique ra dec south s hsmem hsm huniq
  simp [query_region_async, h1, h2]

/-- Witness for claim C6: the point `(5, 0)` misses the north brick and
lies in exactly one south brick. -/
theorem claim_C6_witness :
    (query_region_async "BASE" 9 [brickA] [brickFar] 5 0).result =
      some (tractorURL "BASE" 9 "south" brickFar) :=
  claim_C6 "BASE" 9 [brickA] [brickFar] 5 0 brickFar (by decide) (by decide)
    (by decide) (by decide)

/-- Claim C7: when the format decoder raises a `ValueError`, the bare
`pass` in `_parse_result` discards the error and control reaches
`return table` with the local `table` never bound, so the call ends in an
`UnboundLocalError` rather than any informative failure carrying the parse
error; on a successful decode the decoded table is returned. -/
theorem claim_C7 (α : Type) (t : α) (e : Unit) :
    parse_result (Except.error e : Except Unit α) =
      ParseOutcome.raisedUnboundLocal ∧
    parse_result (Except.error e : Except Unit α) ≠ ParseOutcome.returned t ∧
    parse_result (Except.ok t : Except Unit α) = ParseOutcome.returned t := by
  refine ⟨rfl, ?_, rfl⟩
  simp [parse_result]

/-- Claim C8: the query coordinates are compared raw against the record
bounds, with no normalization to `[0, 360)` or `[-90, 90]`: whenever every
record of both catalogs excludes the (possibly out-of-range) point under
the raw inclusive-bounds test, the call returns the no-match signal. -/
theorem claim_C8 (base : String) (dataRelease : Nat)
    (north south : List BrickRecord) (ra dec : ℚ)
    (hn : ∀ r ∈ north,
      ¬ (r.ra1 ≤ ra ∧ ra ≤ r.ra2 ∧ r.dec1 ≤ dec ∧ dec ≤ r.dec2))
    (hs : ∀ r ∈ south,
      ¬ (r.ra1 ≤ ra ∧ ra ≤ r.ra2 ∧ r.dec1 ≤ dec ∧ dec ≤ r.dec2)) :
    (query_region_async base dataRelease north south ra dec).result = none := by
  have hn2 : ∀ r ∈ north, recordMatches r ra dec = false := by
    intro r hr
    cases hb : recordMatches r ra dec
    · rfl
    · exact absurd ((recordMatches_iff r ra dec).mp hb) (hn r hr)
  have hs2 : ∀ r ∈ south, recordMatches r ra dec = false := by
    intro r hr
    cases hb : recordMatches r ra dec
    · rfl
    · exact absurd ((recordMatches_iff r ra dec).mp hb) (hs r hr)
  have h1 := firstMatch_eq_none north ra dec hn2
  have h2 := firstMatch_eq_none south ra dec hs2
  simp [query_region_async, h1, h2]

/-- Witness for claim C8: the out-of-range point `ra = 400` fails the raw
bound test of every record of two in-range catalogs, so the lookup returns
the no-match signal. -/
theorem claim_C8_witness :
    (query_region_async "BASE" 9 [brickA] [brickS] 400 0).result = none :=
  claim_C8 "BASE" 9 [brickA] [brickS] 400 0 (by decide) (by decide)

/-- Claim C9: `query_object_async` is independent of `object_name` — with
the same base URL, payload flag, cache flag and data release, any two
object names produce identical outcomes — and when a request is made it is
a GET to the hard-coded URL
`{base}/dr{data_release}/north/tractor/000/tractor-0001m002.fits`. -/
theorem claim_C9 (base name1 name2 : String) (getQueryPayload cache : Bool)
    (dataRelease : Nat) :
    query_object_async base name1 getQueryPayload cache dataRelease =
      query_object_async base name2 getQueryPayload cache dataRelease ∧
    query_object_async base name1 false cache dataRelease =
      ObjectQueryResult.request
        (base ++ "/dr" ++ natRepr dataRelease ++
          "/north/tractor/000/tractor-0001m002.fits")
        cache :=
  ⟨rfl, rfl⟩

/-- Claim C10: with `get_query_payload = True`, both `query_object_async`
and `query_brick_list_async` return the empty payload dict and perform no
network request (the outcome is a `payload`, never a `request`). -/
theorem claim_C10 (base objectName emisphere : String) (cache : Bool)
    (dataRelease : Nat) :
    query_object_async base objectName true cache dataRelease =
      ObjectQueryResult.payload [] ∧
    query_brick_list_async base dataRelease true emisphere =
      BrickListResult.payload [] ∧
    (∀ url flag, query_object_async base objectName true cache dataRelease ≠
      ObjectQueryResult.request url flag) ∧
    ∀ url, query_brick_list_async base dataRelease true emisphere ≠
      BrickListResult.request url := by
  refine ⟨rfl, rfl, ?_, ?_⟩
  · intro url flag
    simp [query_object_async]
  · intro url
    simp [query_brick_list_async]

end LegacySurvey
